import Mathlib

/-!
# Verification of the AWS cost-analysis tool

Shallow embedding of `src/main.py` (`AWSCostAnalyzer`) and
`src/simple_analyzer.py` (`SimpleAWSCostAnalyzer`).

Modelling conventions:
* A monthly cost cell of the CSV is an `Option ℚ`: `some v` for a cell whose
  text parses as the number `v`, `none` for an empty cell (which `main.py`
  reads as NaN via pandas and `simple_analyzer.py` skips via `if row[col]`).
  Python float arithmetic is embedded as exact rational arithmetic.
* A CSV row carries the service name, the line-item name (`費用項目`), the
  description (`説明`) and the list of monthly cells, in month-column order.
* Python `dict` assignment / `dict.get` over string keys is embedded as an
  association list with in-place overwrite (`dictInsert`) and first-match
  lookup (`dictGet`); since `dictInsert` keeps keys unique, this agrees with
  Python's last-assignment-wins semantics.
* Python float formatting `f"{x:.2f}"` is embedded by exact rational
  rounding half-to-even (`fmt2`, `fmtSigned1`); binary-float rounding error
  is outside the rational embedding.
-/

/-- One CSV row: service, line-item name, description, monthly cost cells. -/
structure Row where
  service : String
  item : String
  description : String
  cells : List (Option ℚ)
deriving DecidableEq, Repr

/-- The per-item trend record built at `main.py:145-151` /
`simple_analyzer.py:69-75`. -/
structure Trend where
  growth_rate : ℚ
  average : ℚ
  max : ℚ
  min : ℚ
  volatility : ℚ
deriving DecidableEq, Repr

/-- The analysis dict built by `analyze_service_characteristics`
(`main.py:127-131` / `simple_analyzer.py:48-52`): `total_items`,
`cost_trends` (item name → trend record) and `characteristics`. -/
structure Analysis where
  total_items : Nat
  cost_trends : List (String × Trend)
  characteristics : List String
deriving DecidableEq, Repr

/-- Python `dict.get(k)` on a string-keyed dict, as first-match lookup. -/
def dictGet {α : Type} (d : List (String × α)) (k : String) : Option α :=
  match d with
  | [] => none
  | (k2, v) :: rest => if k2 = k then some v else dictGet rest k

/-- Python `d[k] = v`: overwrite in place when the key exists, else append. -/
def dictInsert {α : Type} (d : List (String × α)) (k : String) (v : α) :
    List (String × α) :=
  if d.any (fun p => p.1 = k) then
    d.map (fun p => if p.1 = k then (k, v) else p)
  else d ++ [(k, v)]

/-- The trend computation of `main.py:139-151` / `simple_analyzer.py:63-75`
(the two blocks are textually identical): only lists of more than one cost
get a trend; `growth_rate = ((costs[-1] - costs[0]) / costs[0]) * 100` with
`0` when `costs[0] == 0`; `average = sum(costs)/len(costs)`;
`max`/`min` as Python `max(costs)`/`min(costs)`; `volatility = max - min`. -/
def computeTrend : List ℚ → Option Trend
  | c0 :: c1 :: rest =>
    let costs := c0 :: c1 :: rest
    let lastc := costs.getLastD 0
    let gr := if c0 ≠ 0 then ((lastc - c0) / c0) * 100 else 0
    let avg := costs.sum / (costs.length : ℚ)
    let mx := (c1 :: rest).foldl max c0
    let mn := (c1 :: rest).foldl min c0
    some ⟨gr, avg, mx, mn, mx - mn⟩
  | _ => none

/-- `main.py:157` / `simple_analyzer.py:81`. -/
def rapidGrowthLabel : String := "急成長トレンド（20%以上の増加）"

/-- `main.py:159` / `simple_analyzer.py:83`. -/
def growthLabel : String := "成長トレンド（5%以上の増加）"

/-- `main.py:161` / `simple_analyzer.py:85`. -/
def costReductionLabel : String := "コスト削減トレンド（10%以上の削減）"

/-- `main.py:163` / `simple_analyzer.py:87`. -/
def stableLabel : String := "安定したコスト推移"

/-- `main.py:166` / `simple_analyzer.py:90`. -/
def highVolatilityLabel : String := "変動性が高い"

/-- `main.py:168` / `simple_analyzer.py:92`. -/
def lowVolatilityLabel : String := "変動性が低い"

/-- The characteristics block of `main.py:153-168` /
`simple_analyzer.py:77-92` (textually identical): read
`cost_trends.get('All', {})`; when present, append one growth label chosen
by the thresholds 20 / 5 / -10 and one volatility label chosen by
`volatility > average * 0.5`. -/
def characteristicsOf (trends : List (String × Trend)) : List String :=
  match dictGet trends "All" with
  | none => []
  | some t =>
    [ (if t.growth_rate > 20 then rapidGrowthLabel
       else if t.growth_rate > 5 then growthLabel
       else if t.growth_rate < -10 then costReductionLabel
       else stableLabel),
      (if t.volatility > t.average * 0.5 then highVolatilityLabel
       else lowVolatilityLabel) ]

/-- The `cost_trends` dict built by the per-row loop
(`main.py:134-151` / `simple_analyzer.py:58-75`) from
(item name, parsed monthly costs) pairs in row order. -/
def trendsOfPairs (pairs : List (String × List ℚ)) : List (String × Trend) :=
  pairs.foldl
    (fun acc p =>
      match computeTrend p.2 with
      | some t => dictInsert acc p.1 t
      | none => acc) []

/-- `simple_analyzer.py:60`: `[float(row[col]) for col in month_columns if
row[col]]` — empty cells are skipped. -/
def SimpleAWSCostAnalyzer.rowCosts (r : Row) : List ℚ :=
  r.cells.filterMap id

/-- `main.py:136`: `[float(row[col]) for col in self.month_columns]` — every
cell must be a number; an empty cell (NaN under pandas) has no rational
value and makes the whole list unavailable in this embedding. -/
def parseCells : List (Option ℚ) → Option (List ℚ)
  | [] => some []
  | none :: _ => none
  | some v :: rest => (parseCells rest).map (fun cs => v :: cs)

/-- The (item name, parsed costs) pairs of the per-row loop of
`main.py:134-136`, in row order; `none` when some cell is missing. -/
def AWSCostAnalyzer.rowPairs : List Row → Option (List (String × List ℚ))
  | [] => some []
  | r :: rest =>
    match parseCells r.cells, AWSCostAnalyzer.rowPairs rest with
    | some cs, some ps => some ((r.item, cs) :: ps)
    | _, _ => none

/-- `simple_analyzer.py:41-94`, `analyze_service_characteristics`:
filter the rows of the service (`none` embeds the `{}` returned for an
unknown service), then build `cost_trends` and `characteristics`. -/
def SimpleAWSCostAnalyzer.analyze_service_characteristics
    (data : List Row) (service : String) : Option Analysis :=
  let sd := data.filter (fun r => r.service == service)
  if sd.isEmpty then none
  else
    let trends := trendsOfPairs
      (sd.map (fun r => (r.item, SimpleAWSCostAnalyzer.rowCosts r)))
    some { total_items := sd.length
           cost_trends := trends
           characteristics := characteristicsOf trends }

/-- `main.py:120-170`, `analyze_service_characteristics`: as the simple
version, but every monthly cell of every row of the service must parse
(`main.py:136` calls `float` on each cell unconditionally); `none` embeds
both the `{}` of an unknown service and a dataset with a missing cell. -/
def AWSCostAnalyzer.analyze_service_characteristics
    (data : List Row) (service : String) : Option Analysis :=
  let sd := data.filter (fun r => r.service == service)
  if sd.isEmpty then none
  else
    match AWSCostAnalyzer.rowPairs sd with
    | none => none
    | some pairs =>
      let trends := trendsOfPairs pairs
      some { total_items := sd.length
             cost_trends := trends
             characteristics := characteristicsOf trends }

/-- Nearest integer, ties to even — the rounding applied by Python's fixed-
point float formatting, taken here on the exact rational value. -/
def roundHalfEven (x : ℚ) : ℤ :=
  let f : ℤ := Int.floor x
  let frac : ℚ := x - (f : ℚ)
  if frac < 1/2 then f
  else if 1/2 < frac then f + 1
  else if f % 2 = 0 then f else f + 1

/-- Two-digit zero padding for the fractional part. -/
def pad2 (n : Nat) : String :=
  if n < 10 then "0" ++ toString n else toString n

/-- Python `f"{x:.2f}"` on the exact rational value. -/
def fmt2 (x : ℚ) : String :=
  let n : ℤ := roundHalfEven (x * 100)
  (if n < 0 then "-" else "") ++
    toString (n.natAbs / 100) ++ "." ++ pad2 (n.natAbs % 100)

/-- Python `f"{x:+.1f}"` on the exact rational value. -/
def fmtSigned1 (x : ℚ) : String :=
  let n : ℤ := roundHalfEven (x * 10)
  (if n < 0 then "-" else "+") ++
    toString (n.natAbs / 10) ++ "." ++ toString (n.natAbs % 10)

/-- A monthly cell under `f"{float(row[col]):.2f}"` in `main.py`: a missing
cell is NaN under pandas and prints as `nan`. -/
def fmtCell (c : Option ℚ) : String :=
  match c with
  | some v => fmt2 v
  | none => "nan"

/-- Python `str.replace` on the character list: every non-overlapping
occurrence of `pat`, scanning left to right and continuing after the
replacement. The list length serves as structural fuel (each step consumes
at least one character, so `s.length` steps always suffice); `String.replace`
itself is defined by well-founded recursion, which the kernel cannot
evaluate. Only ever called with a non-empty pattern. -/
def replaceFuel (pat rep : List Char) : Nat → List Char → List Char
  | 0, s => s
  | fuel + 1, s =>
    match s with
    | [] => []
    | c :: rest =>
      if pat.isPrefixOf (c :: rest) then
        rep ++ replaceFuel pat rep fuel ((c :: rest).drop pat.length)
      else
        c :: replaceFuel pat rep fuel rest

/-- Python `s.replace(pat, rep)` for a non-empty `pat`. -/
def replaceStr (s pat rep : String) : String :=
  ⟨replaceFuel pat.data rep.data s.data.length s.data⟩

/-- `col.replace('費用（', '').replace('）', '')` (`main.py:247` etc.). -/
def stripMonth (col : String) : String :=
  replaceStr (replaceStr col "費用（" "") "）" ""

/-- `col.replace('費用（', '').replace('）', '').replace('2025年', '')`
(`simple_analyzer.py:250`). -/
def stripMonthShort (col : String) : String :=
  replaceStr (stripMonth col) "2025年" ""

/-- The `service_suggestions` dict literal of `main.py:281-300`. -/
def AWSCostAnalyzer.service_suggestions : List (String × List String) :=
  [ ("Amazon S3",
     [ "ライフサイクルポリシーを設定して、古いデータをGlacierに自動移行",
       "アクセス頻度の低いデータにはIntelligent Tieringを活用",
       "不要な重複データの削除とデータ重複排除の実装",
       "リージョン間レプリケーションの必要性を定期的に見直し" ]),
    ("Amazon EC2",
     [ "予約インスタンスの購入でオンデマンド料金を削減",
       "使用率の低いインスタンスのサイジング見直し",
       "スポットインスタンスの活用検討",
       "不要なElastic IPアドレスの解放" ]),
    ("Amazon RDS",
     [ "データベースインスタンスのサイジング最適化",
       "自動バックアップ期間の見直し",
       "読み取り専用レプリカの必要性評価",
       "予約インスタンスの活用検討" ]) ]

/-- The `service_suggestions` dict literal of `simple_analyzer.py:480-511`
(the three tables of `main.py` plus CloudFront and Lambda). -/
def SimpleAWSCostAnalyzer.service_suggestions : List (String × List String) :=
  AWSCostAnalyzer.service_suggestions ++
  [ ("Amazon CloudFront",
     [ "キャッシュ設定の最適化でオリジンアクセス削減",
       "価格クラスの見直しで配信コスト削減",
       "Origin Shieldの利用効果検証",
       "不要なディストリビューションの削除" ]),
    ("Amazon Lambda",
     [ "メモリサイズと実行時間の最適化",
       "不要な関数実行の削除",
       "プロビジョンド同時実行の見直し",
       "関数の統合・集約検討" ]) ]

/-- `main.py:309` / `simple_analyzer.py:520`. -/
def urgentCostIncreaseLabel : String :=
  "急激なコスト増加が見られるため、使用量とリソース配置の緊急見直しが必要"

/-- `analysis['cost_trends'].get('All', {}).get('growth_rate', 0)`
(`main.py:307-308` / `simple_analyzer.py:518-519`). -/
def allGrowthRate (a : Analysis) : ℚ :=
  ((dictGet a.cost_trends "All").map Trend.growth_rate).getD 0

/-- The shared body of `generate_optimization_suggestions`
(`main.py:276-311` / `simple_analyzer.py:475-522`), parameterised by the
service-specific table: table entries for the service, then the urgent
suggestion when the 'All' growth rate exceeds 20, truncated to 4. -/
def optimizationSuggestionsWith (table : List (String × List String))
    (service : String) (a : Analysis) : List String :=
  let base := (dictGet table service).getD []
  let withUrgent :=
    if allGrowthRate a > 20 then base ++ [urgentCostIncreaseLabel] else base
  withUrgent.take 4

/-- `main.py:276-311`, `generate_optimization_suggestions`. -/
def AWSCostAnalyzer.generate_optimization_suggestions
    (service : String) (a : Analysis) : List String :=
  optimizationSuggestionsWith AWSCostAnalyzer.service_suggestions service a

/-- `simple_analyzer.py:475-522`, `generate_optimization_suggestions`. -/
def SimpleAWSCostAnalyzer.generate_optimization_suggestions
    (service : String) (a : Analysis) : List String :=
  optimizationSuggestionsWith SimpleAWSCostAnalyzer.service_suggestions service a

/-- One row of the `費用項目詳細` table (`main.py:217-226` /
`simple_analyzer.py:140-149`): `analysis['cost_trends'].get(item_name, {})`
with defaults 0 for `average`, `growth_rate` and `volatility`. -/
def detailRow (trends : List (String × Trend)) (item description : String) :
    String :=
  let td := dictGet trends item
  let avg := (td.map Trend.average).getD 0
  let gr := (td.map Trend.growth_rate).getD 0
  let vol := (td.map Trend.volatility).getD 0
  "| " ++ item ++ " | " ++ description ++ " | $" ++ fmt2 avg ++ " | " ++
    fmtSigned1 gr ++ "% | $" ++ fmt2 vol ++ " |\n"

/-- `main.py:172-274`, `generate_service_markdown`: the Markdown content
written for a service (`none` embeds the early return for a service with no
rows). `months` is `self.month_columns`, `date` is
`datetime.now().strftime("%Y/%m/%d")` made explicit, `chartFile` the chart
file name, `a` the analysis dict. The per-row monthly cells stand for
`float(row[col])` over the month columns. -/
def AWSCostAnalyzer.generate_service_markdown (data : List Row)
    (months : List String) (service chartFile date : String) (a : Analysis) :
    Option String :=
  let sd := data.filter (fun r => r.service == service)
  if sd.isEmpty then none
  else some (
    "# " ++ service ++ " コスト分析レポート\n\n**分析日**: " ++ date ++
    "\n\n## 概要\n\n" ++ service ++
    "の2025年3月から8月までの6ヶ月間のコスト分析結果です。\n\n## コスト推移グラフ\n\n![" ++
    service ++ " コスト推移](../src/charts/" ++ chartFile ++
    ")\n\n## 料金の特徴\n\n### 分析サマリー\n" ++
    String.join (a.characteristics.map (fun c => "- " ++ c ++ "\n")) ++
    "\n### 費用項目詳細\n\n| 費用項目 | 説明 | 6ヶ月平均 | 成長率 | 変動幅 |\n|---------|------|----------|--------|--------|\n" ++
    String.join (sd.map (fun r => detailRow a.cost_trends r.item r.description)) ++
    "\n## コスト最適化提案\n\n### 主要な推奨事項\n" ++
    String.join ((AWSCostAnalyzer.generate_optimization_suggestions service a).map
      (fun s => "- " ++ s ++ "\n")) ++
    "\n### 月次コスト詳細\n\n| 費用項目 |" ++
    String.join (months.map (fun m => " " ++ stripMonth m ++ " |")) ++
    "\n|---------|" ++ String.join (months.map (fun _ => "---------|")) ++ "\n" ++
    String.join (sd.map (fun r =>
      "| " ++ r.item ++ " |" ++
      String.join (r.cells.map (fun c => " $" ++ fmtCell c ++ " |")) ++ "\n")) ++
    "\n---\n*このレポートは自動生成されました。最新の分析結果については定期的に更新してください。*\n")

/-- One entry of `chart_data` in `create_mermaid_chart`
(`simple_analyzer.py:226-230`): item name, monthly costs (empty cells read
as 0) and their average. -/
structure ChartItem where
  name : String
  costs : List ℚ
  avg : ℚ
deriving DecidableEq, Repr

/-- Insert into a descending-by-average list, placing the new item before
the first entry whose average does not exceed it. -/
def insertByAvgDesc (x : ChartItem) : List ChartItem → List ChartItem
  | [] => [x]
  | y :: rest =>
    if y.avg ≤ x.avg then x :: y :: rest else y :: insertByAvgDesc x rest

/-- `other_items.sort(key=lambda x: x['avg'], reverse=True)`
(`simple_analyzer.py:241`): stable descending sort by average. Insertion
sort that keeps earlier equal-average items first produces the same (unique)
stable descending order as Python's `sort`. -/
def sortByAvgDesc : List ChartItem → List ChartItem
  | [] => []
  | x :: rest => insertByAvgDesc x (sortByAvgDesc rest)

/-- Python `max` of a cost list; the default for `[]` is never used (every
call site guards for non-emptiness, as the source's `max` would raise). -/
def listMaxD : List ℚ → ℚ
  | [] => 0
  | c :: cr => cr.foldl max c

/-- Python `int()` on a number: truncation toward zero. -/
def truncInt (x : ℚ) : ℤ :=
  if x < 0 then -Int.floor (-x) else Int.floor x

/-- The `mermaid_colors` list literal of `simple_analyzer.py:305`. -/
def mermaid_colors : List String :=
  ["#1f77b4", "#ff7f0e", "#2ca02c", "#d62728", "#9467bd",
   "#8c564b", "#e377c2", "#7f7f7f", "#bcbd22", "#17becf"]

/-- `simple_analyzer.py:212-322`, `create_mermaid_chart`: per-row chart
data (empty cells read as 0, average 0 for a row with no columns), the last
`'All'` item first followed by the top three other items by average (top
four when there is no `'All'`), then the `xychart-beta` Mermaid block and
the colour legend. The `gitgraph`/`flowchart` blocks of lines 254-287 are
dead code (the list is rebuilt at line 290) and are not modelled. `none`
embeds the two crashing paths: empty `service_data` (the bare-string return
of line 245 fails tuple unpacking at line 189) and no month columns (the
`max()` of line 298 raises on an empty sequence); neither is reachable from
`generate_service_markdown` on a dataset with rows and month columns. -/
def SimpleAWSCostAnalyzer.create_mermaid_chart (service_data : List Row)
    (month_columns : List String) : Option (String × String) :=
  let chart_data : List ChartItem := service_data.map (fun r =>
    let costs := r.cells.map (fun c => c.getD 0)
    { name := r.item
      costs := costs
      avg := if costs.isEmpty then 0 else costs.sum / (costs.length : ℚ) })
  let all_item := (chart_data.filter (fun i => i.name == "All")).getLast?
  let other_items := chart_data.filter (fun i => !(i.name == "All"))
  let sorted_others := sortByAvgDesc other_items
  let sorted_data := match all_item with
    | some ai => ai :: sorted_others.take 3
    | none => sorted_others.take 4
  match sorted_data with
  | [] => none
  | _ :: _ =>
    let month_names := month_columns.map stripMonthShort
    let x_axis_data := "[" ++ String.intercalate ", "
      (month_names.map (fun m => "\"" ++ m ++ "\"")) ++ "]"
    match (sorted_data.filter (fun i => !i.costs.isEmpty)).map
        (fun i => listMaxD i.costs) with
    | [] => none
    | m :: ms =>
      let max_cost := ms.foldl max m
      let y_max := truncInt (max_cost * 1.1)
      let mermaid_lines :=
        ["xychart-beta",
         "    title \"コスト推移\"",
         "    x-axis " ++ x_axis_data,
         "    y-axis \"コスト (USD)\" 0 --> " ++ toString y_max] ++
        sorted_data.enum.filterMap (fun p =>
          if p.2.costs.isEmpty then none
          else
            let display_name := if p.2.name.length > 20
              then p.2.name.take 17 ++ "..." else p.2.name
            some ("    line \"" ++ display_name ++ "\" " ++
              ("[" ++ String.intercalate ", " (p.2.costs.map fmt2) ++ "]")))
      let legend_lines := sorted_data.enum.filterMap (fun p =>
        if p.2.costs.isEmpty then none
        else
          let color := mermaid_colors.getD (p.1 % mermaid_colors.length) ""
          some ("- <span style=\"color:" ++ color ++ "\">●</span> **" ++
            p.2.name ++ "** (平均: $" ++ fmt2 p.2.avg ++ ")"))
      some (String.intercalate "\n" mermaid_lines,
            String.intercalate "\n" legend_lines)

/-- `simple_analyzer.py:96-210`, `generate_service_markdown`: the Markdown
content written for a service. As for the `main.py` variant, `months` is the
month-column list and `date` the `datetime.now()` date made explicit; there
is no chart-image section, monthly cells render empty cells as 0
(line 184), and the Mermaid chart plus legend are appended before the
footer. `none` embeds the early return for a service with no rows and the
`create_mermaid_chart` crash on a dataset without month columns. -/
def SimpleAWSCostAnalyzer.generate_service_markdown (data : List Row)
    (months : List String) (service date : String) (a : Analysis) :
    Option String :=
  let sd := data.filter (fun r => r.service == service)
  if sd.isEmpty then none
  else
    match SimpleAWSCostAnalyzer.create_mermaid_chart sd months with
    | none => none
    | some (mermaid_chart, legend) =>
      some (
        "# " ++ service ++ " コスト分析レポート\n\n**分析日**: " ++ date ++
        "\n\n## 概要\n\n" ++ service ++
        "の2025年3月から8月までの6ヶ月間のコスト分析結果です。\n\n## 料金の特徴\n\n### 分析サマリー\n" ++
        String.join (a.characteristics.map (fun c => "- " ++ c ++ "\n")) ++
        "\n### 費用項目詳細\n\n| 費用項目 | 説明 | 6ヶ月平均 | 成長率 | 変動幅 |\n|---------|------|----------|--------|--------|\n" ++
        String.join (sd.map (fun r => detailRow a.cost_trends r.item r.description)) ++
        "\n## コスト最適化提案\n\n### 主要な推奨事項\n" ++
        String.join ((SimpleAWSCostAnalyzer.generate_optimization_suggestions service a).map
          (fun s => "- " ++ s ++ "\n")) ++
        "\n### 月次コスト詳細\n\n| 費用項目 |" ++
        String.join (months.map (fun m => " " ++ stripMonth m ++ " |")) ++
        "\n|---------|" ++ String.join (months.map (fun _ => "---------|")) ++ "\n" ++
        String.join (sd.map (fun r =>
          "| " ++ r.item ++ " |" ++
          String.join (r.cells.map (fun c => " $" ++ fmt2 (c.getD 0) ++ " |")) ++ "\n")) ++
        "\n### コスト推移グラフ\n\n```mermaid\n" ++ mermaid_chart ++
        "\n```\n\n**凡例:**\n" ++ legend ++ "\n" ++
        "\n---\n*このレポートは自動生成されました。最新の分析結果については定期的に更新してください。*\n")

/-- Sample row used in concrete witnesses: the 'All' item of service `"S"`
with costs 1, 2 — growth rate 100, average 3/2, volatility 1. -/
def sampleRowAll : Row := ⟨"S", "All", "", [some 1, some 2]⟩

/-- Sample one-row dataset. -/
def sampleData : List Row := [sampleRowAll]

/-- The month columns matching the two cells of `sampleRowAll`. -/
def sampleMonths : List String := ["費用（2025年3月）", "費用（2025年4月）"]

/-- The trend record of `sampleRowAll`. -/
def sampleTrend : Trend := ⟨100, 3/2, 2, 1, 1⟩

/-- The analysis of `sampleData` for service `"S"`. -/
def sampleAnalysis : Analysis :=
  ⟨1, [("All", sampleTrend)], [rapidGrowthLabel, highVolatilityLabel]⟩

/-- Sample two-row dataset: `sampleRowAll` plus an extra item `"B"`. -/
def sampleData2 : List Row :=
  [sampleRowAll, ⟨"S", "B", "", [some 0, some 100]⟩]

/-- The analysis of `sampleData2` for service `"S"`. -/
def sampleAnalysis2 : Analysis :=
  ⟨2, [("All", sampleTrend), ("B", ⟨0, 50, 100, 0, 100⟩)],
   [rapidGrowthLabel, highVolatilityLabel]⟩

/-- Sample dataset with an item `"A"` holding a single parsed cost. -/
def sampleData10 : List Row :=
  [sampleRowAll, ⟨"S", "A", "", [some 1]⟩]

/-- The analysis of `sampleData10` for service `"S"`: the single-cost item
`"A"` gets no `cost_trends` entry. -/
def sampleAnalysis10 : Analysis :=
  ⟨2, [("All", sampleTrend)], [rapidGrowthLabel, highVolatilityLabel]⟩

/-- An analysis with no trend entries at all. -/
def emptyAnalysis : Analysis := ⟨1, [], []⟩

section

attribute [local semireducible] Rat.mul Rat.add Rat.sub Rat.inv Rat.ofScientific

theorem le_foldl_max (l : List ℚ) : ∀ a : ℚ, a ≤ l.foldl max a := by
  induction l with
  | nil => intro a; simp
  | cons b t ih =>
    intro a
    rw [List.foldl_cons]
    exact le_trans (le_max_left a b) (ih (max a b))

theorem foldl_max_mem (l : List ℚ) : ∀ a : ℚ, l.foldl max a = a ∨ l.foldl max a ∈ l := by
  induction l with
  | nil => intro a; left; rfl
  | cons b t ih =>
    intro a
    rw [List.foldl_cons]
    rcases ih (max a b) with h | h
    · rcases max_choice a b with hm | hm
      · left; rw [h, hm]
      · right; rw [h, hm]; exact List.mem_cons_self b t
    · right; exact List.mem_cons_of_mem b h

theorem le_foldl_max_of_mem (l : List ℚ) : ∀ (a x : ℚ), x ∈ l → x ≤ l.foldl max a := by
  induction l with
  | nil => intro a x hx; cases hx
  | cons b t ih =>
    intro a x hx
    rw [List.foldl_cons]
    rcases List.mem_cons.mp hx with rfl | hx
    · exact le_trans (le_max_right a x) (le_foldl_max t (max a x))
    · exact ih (max a b) x hx

theorem foldl_min_le (l : List ℚ) : ∀ a : ℚ, l.foldl min a ≤ a := by
  induction l with
  | nil => intro a; simp
  | cons b t ih =>
    intro a
    rw [List.foldl_cons]
    exact le_trans (ih (min a b)) (min_le_left a b)

theorem foldl_min_mem (l : List ℚ) : ∀ a : ℚ, l.foldl min a = a ∨ l.foldl min a ∈ l := by
  induction l with
  | nil => intro a; left; rfl
  | cons b t ih =>
    intro a
    rw [List.foldl_cons]
    rcases ih (min a b) with h | h
    · rcases min_choice a b with hm | hm
      · left; rw [h, hm]
      · right; rw [h, hm]; exact List.mem_cons_self b t
    · right; exact List.mem_cons_of_mem b h

theorem foldl_min_le_of_mem (l : List ℚ) : ∀ (a x : ℚ), x ∈ l → l.foldl min a ≤ x := by
  induction l with
  | nil => intro a x hx; cases hx
  | cons b t ih =>
    intro a x hx
    rw [List.foldl_cons]
    rcases List.mem_cons.mp hx with rfl | hx
    · exact le_trans (foldl_min_le t (min a x)) (min_le_right a x)
    · exact ih (min a b) x hx

theorem length_mul_le_sum (l : List ℚ) (m : ℚ) (h : ∀ x ∈ l, m ≤ x) :
    (l.length : ℚ) * m ≤ l.sum := by
  induction l with
  | nil => simp
  | cons b t ih =>
    have hb := h b (List.mem_cons_self b t)
    have ht := ih (fun x hx => h x (List.mem_cons_of_mem b hx))
    have hx : ((t.length : ℚ) + 1) * m = (t.length : ℚ) * m + m := by ring
    simp only [List.length_cons, List.sum_cons]
    push_cast
    linarith

theorem sum_le_length_mul (l : List ℚ) (m : ℚ) (h : ∀ x ∈ l, x ≤ m) :
    l.sum ≤ (l.length : ℚ) * m := by
  induction l with
  | nil => simp
  | cons b t ih =>
    have hb := h b (List.mem_cons_self b t)
    have ht := ih (fun x hx => h x (List.mem_cons_of_mem b hx))
    simp only [List.length_cons, List.sum_cons]
    push_cast
    linarith

theorem dictGet_mem {α : Type} (d : List (String × α)) (k : String) (v : α)
    (h : dictGet d k = some v) : (k, v) ∈ d := by
  induction d with
  | nil => cases h
  | cons p rest ih =>
    obtain ⟨k2, v2⟩ := p
    unfold dictGet at h
    split at h
    · rename_i he
      cases h
      subst he
      exact List.mem_cons_self _ _
    · exact List.mem_cons_of_mem _ (ih h)

theorem mem_dictInsert {α : Type} (d : List (String × α)) (k2 : String) (v : α)
    (k : String) (t : α) (h : (k, t) ∈ dictInsert d k2 v) :
    (k, t) ∈ d ∨ (k = k2 ∧ t = v) := by
  unfold dictInsert at h
  split at h
  · rcases List.mem_map.mp h with ⟨p, hp, hpe⟩
    split at hpe
    · cases hpe
      right
      exact ⟨rfl, rfl⟩
    · left
      exact hpe ▸ hp
  · rcases List.mem_append.mp h with h1 | h1
    · left
      exact h1
    · have := List.mem_singleton.mp h1
      cases this
      right
      exact ⟨rfl, rfl⟩

theorem trendsFold_mem (pairs : List (String × List ℚ)) :
    ∀ (acc : List (String × Trend)) (k : String) (t : Trend),
      (k, t) ∈ pairs.foldl
        (fun acc p =>
          match computeTrend p.2 with
          | some u => dictInsert acc p.1 u
          | none => acc) acc →
      (k, t) ∈ acc ∨ ∃ cs, (k, cs) ∈ pairs ∧ computeTrend cs = some t := by
  induction pairs with
  | nil =>
    intro acc k t h
    left
    exact h
  | cons p rest ih =>
    obtain ⟨pk, pcs⟩ := p
    intro acc k t h
    rw [List.foldl_cons] at h
    rcases ih _ k t h with hacc | ⟨cs, hcs, hct⟩
    · cases hc : computeTrend pcs with
      | none =>
        simp only [hc] at hacc
        left
        exact hacc
      | some u =>
        simp only [hc] at hacc
        rcases mem_dictInsert _ _ _ _ _ hacc with h1 | ⟨hk, ht⟩
        · left
          exact h1
        · right
          refine ⟨pcs, ?_, ?_⟩
          · rw [hk]
            exact List.mem_cons_self _ _
          · rw [ht, hc]
    · right
      exact ⟨cs, List.mem_cons_of_mem _ hcs, hct⟩

theorem trendsOfPairs_mem (pairs : List (String × List ℚ)) (k : String) (t : Trend)
    (h : (k, t) ∈ trendsOfPairs pairs) :
    ∃ cs, (k, cs) ∈ pairs ∧ computeTrend cs = some t := by
  rcases trendsFold_mem pairs [] k t h with h0 | h1
  · cases h0
  · exact h1

theorem dictGet_trendsOfPairs_none (pairs : List (String × List ℚ)) (k : String)
    (h : ∀ cs, (k, cs) ∈ pairs → computeTrend cs = none) :
    dictGet (trendsOfPairs pairs) k = none := by
  cases hd : dictGet (trendsOfPairs pairs) k with
  | none => rfl
  | some t =>
    rcases trendsOfPairs_mem pairs k t (dictGet_mem _ _ _ hd) with ⟨cs, hcs, hct⟩
    rw [h cs hcs] at hct
    cases hct

theorem computeTrend_eq_none_of_short (cs : List ℚ) (h : cs.length ≤ 1) :
    computeTrend cs = none := by
  match cs, h with
  | [], _ => rfl
  | [a], _ => rfl

theorem computeTrend_spec (costs : List ℚ) (t : Trend)
    (h : computeTrend costs = some t) :
    2 ≤ costs.length ∧
    t.growth_rate = (if costs.headD 0 = 0 then 0
      else ((costs.getLastD 0 - costs.headD 0) / costs.headD 0) * 100) ∧
    t.average = costs.sum / (costs.length : ℚ) ∧
    t.max ∈ costs ∧ (∀ x ∈ costs, x ≤ t.max) ∧
    t.min ∈ costs ∧ (∀ x ∈ costs, t.min ≤ x) ∧
    t.volatility = t.max - t.min := by
  match costs with
  | [] => cases h
  | [a] => cases h
  | c0 :: c1 :: rest =>
    simp only [computeTrend] at h
    cases h
    refine ⟨by simp, ?_, rfl, ?_, ?_, ?_, ?_, rfl⟩
    · by_cases hc : c0 = 0 <;> simp [hc]
    · rcases foldl_max_mem (c1 :: rest) c0 with hm | hm
      · rw [hm]
        exact List.mem_cons_self _ _
      · exact List.mem_cons_of_mem _ hm
    · intro x hx
      rcases List.mem_cons.mp hx with rfl | hx2
      · exact le_foldl_max _ _
      · exact le_foldl_max_of_mem _ _ _ hx2
    · rcases foldl_min_mem (c1 :: rest) c0 with hm | hm
      · rw [hm]
        exact List.mem_cons_self _ _
      · exact List.mem_cons_of_mem _ hm
    · intro x hx
      rcases List.mem_cons.mp hx with rfl | hx2
      · exact foldl_min_le _ _
      · exact foldl_min_le_of_mem _ _ _ hx2

theorem parseCells_eq_filterMap (cells : List (Option ℚ)) (cs : List ℚ)
    (h : parseCells cells = some cs) : cs = cells.filterMap id := by
  induction cells generalizing cs with
  | nil =>
    cases h
    rfl
  | cons c rest ih =>
    cases c with
    | none => cases h
    | some v =>
      simp only [parseCells] at h
      cases hp : parseCells rest with
      | none =>
        rw [hp] at h
        cases h
      | some cs2 =>
        rw [hp] at h
        simp only [Option.map_some'] at h
        cases h
        simp [List.filterMap_cons, ← ih cs2 hp]

theorem parseCells_of_all_some (cells : List (Option ℚ))
    (h : ∀ c ∈ cells, c.isSome) :
    parseCells cells = some (cells.filterMap id) := by
  induction cells with
  | nil => rfl
  | cons c rest ih =>
    cases c with
    | none => exact absurd (h none (List.mem_cons_self _ _)) (by simp)
    | some v =>
      have hr := ih (fun c hc => h c (List.mem_cons_of_mem _ hc))
      simp [parseCells, hr, List.filterMap_cons]

theorem rowPairs_mem (rows : List Row) (pairs : List (String × List ℚ))
    (h : AWSCostAnalyzer.rowPairs rows = some pairs) (k : String) (cs : List ℚ)
    (hmem : (k, cs) ∈ pairs) :
    ∃ r ∈ rows, r.item = k ∧ parseCells r.cells = some cs := by
  induction rows generalizing pairs with
  | nil =>
    cases h
    cases hmem
  | cons r rest ih =>
    simp only [AWSCostAnalyzer.rowPairs] at h
    cases hp : parseCells r.cells with
    | none =>
      rw [hp] at h
      cases h
    | some cs0 =>
      cases hr : AWSCostAnalyzer.rowPairs rest with
      | none =>
        rw [hp, hr] at h
        cases h
      | some ps =>
        rw [hp, hr] at h
        cases h
        rcases List.mem_cons.mp hmem with he | hm
        · cases he
          exact ⟨r, List.mem_cons_self _ _, rfl, hp⟩
        · rcases ih ps hr hm with ⟨r2, hr2, hi, hpc⟩
          exact ⟨r2, List.mem_cons_of_mem _ hr2, hi, hpc⟩

theorem rowPairs_of_all_some (rows : List Row)
    (h : ∀ r ∈ rows, ∀ c ∈ r.cells, c.isSome) :
    AWSCostAnalyzer.rowPairs rows =
      some (rows.map (fun r => (r.item, SimpleAWSCostAnalyzer.rowCosts r))) := by
  induction rows with
  | nil => rfl
  | cons r rest ih =>
    have h1 := parseCells_of_all_some r.cells (h r (List.mem_cons_self _ _))
    have h2 := ih (fun r2 hr2 c hc => h r2 (List.mem_cons_of_mem _ hr2) c hc)
    simp [AWSCostAnalyzer.rowPairs, h1, h2, SimpleAWSCostAnalyzer.rowCosts]

theorem simple_analyze_parts (data : List Row) (service : String) (a : Analysis)
    (ha : SimpleAWSCostAnalyzer.analyze_service_characteristics data service = some a) :
    a.cost_trends = trendsOfPairs ((data.filter (fun r => r.service == service)).map
        (fun r => (r.item, SimpleAWSCostAnalyzer.rowCosts r))) ∧
    a.characteristics = characteristicsOf a.cost_trends ∧
    a.total_items = (data.filter (fun r => r.service == service)).length := by
  simp only [SimpleAWSCostAnalyzer.analyze_service_characteristics] at ha
  split at ha
  · cases ha
  · injection ha with h2
    subst h2
    exact ⟨rfl, rfl, rfl⟩

theorem main_analyze_parts (data : List Row) (service : String) (a : Analysis)
    (ha : AWSCostAnalyzer.analyze_service_characteristics data service = some a) :
    ∃ pairs, AWSCostAnalyzer.rowPairs (data.filter (fun r => r.service == service)) = some pairs ∧
      a.cost_trends = trendsOfPairs pairs ∧
      a.characteristics = characteristicsOf a.cost_trends ∧
      a.total_items = (data.filter (fun r => r.service == service)).length := by
  simp only [AWSCostAnalyzer.analyze_service_characteristics] at ha
  split at ha
  · cases ha
  · split at ha
    · cases ha
    · rename_i pairs hp
      injection ha with h2
      subst h2
      exact ⟨pairs, hp, rfl, rfl, rfl⟩

theorem analyze_characteristics_eq (data : List Row) (service : String) (a : Analysis)
    (ha : SimpleAWSCostAnalyzer.analyze_service_characteristics data service = some a ∨
          AWSCostAnalyzer.analyze_service_characteristics data service = some a) :
    a.characteristics = characteristicsOf a.cost_trends := by
  rcases ha with h | h
  · exact (simple_analyze_parts _ _ _ h).2.1
  · rcases main_analyze_parts _ _ _ h with ⟨_, _, _, hc, _⟩
    exact hc

theorem analyze_cost_trends_mem (data : List Row) (service : String) (a : Analysis)
    (ha : SimpleAWSCostAnalyzer.analyze_service_characteristics data service = some a ∨
          AWSCostAnalyzer.analyze_service_characteristics data service = some a)
    (k : String) (t : Trend) (ht : (k, t) ∈ a.cost_trends) :
    ∃ r ∈ data, r.service = service ∧ r.item = k ∧
      computeTrend (SimpleAWSCostAnalyzer.rowCosts r) = some t := by
  rcases ha with h | h
  · rw [(simple_analyze_parts _ _ _ h).1] at ht
    rcases trendsOfPairs_mem _ _ _ ht with ⟨cs, hcs, hct⟩
    rcases List.mem_map.mp hcs with ⟨r, hr, he⟩
    rcases List.mem_filter.mp hr with ⟨hrd, hrs⟩
    injection he with he1 he2
    refine ⟨r, hrd, by simpa using hrs, he1, ?_⟩
    rw [he2]
    exact hct
  · rcases main_analyze_parts _ _ _ h with ⟨pairs, hp, hct_eq, _, _⟩
    rw [hct_eq] at ht
    rcases trendsOfPairs_mem _ _ _ ht with ⟨cs, hcs, hct⟩
    rcases rowPairs_mem _ _ hp k cs hcs with ⟨r, hr, hitem, hpc⟩
    rcases List.mem_filter.mp hr with ⟨hrd, hrs⟩
    refine ⟨r, hrd, by simpa using hrs, hitem, ?_⟩
    have : cs = SimpleAWSCostAnalyzer.rowCosts r := parseCells_eq_filterMap _ _ hpc
    rw [← this]
    exact hct

theorem analyze_dictGet_none (data : List Row) (service : String) (a : Analysis)
    (ha : SimpleAWSCostAnalyzer.analyze_service_characteristics data service = some a ∨
          AWSCostAnalyzer.analyze_service_characteristics data service = some a)
    (k : String)
    (hshort : ∀ r ∈ data, r.service = service → r.item = k →
      (SimpleAWSCostAnalyzer.rowCosts r).length ≤ 1) :
    dictGet a.cost_trends k = none := by
  cases hd : dictGet a.cost_trends k with
  | none => rfl
  | some t =>
    rcases analyze_cost_trends_mem data service a ha k t (dictGet_mem _ _ _ hd) with
      ⟨r, hr, hs, hi, hct⟩
    rw [computeTrend_eq_none_of_short _ (hshort r hr hs hi)] at hct
    cases hct

/-- C1: for every line-item with at least two monthly cost values, the trend
computation of `analyze_service_characteristics` (`main.py:139-140` /
`simple_analyzer.py:63-64`) yields
`growth_rate = ((last - first) / first) * 100` over the item's monthly cost
sequence, and `growth_rate = 0` when the first monthly cost is 0. -/
theorem C1_growth_rate_formula (costs : List ℚ) (h : 2 ≤ costs.length) :
    ∃ t, computeTrend costs = some t ∧
      (costs.headD 0 = 0 → t.growth_rate = 0) ∧
      (costs.headD 0 ≠ 0 →
        t.growth_rate =
          ((costs.getLastD 0 - costs.headD 0) / costs.headD 0) * 100) := by
  have hex : ∃ t, computeTrend costs = some t := by
    match costs, h with
    | c0 :: c1 :: rest, _ => exact ⟨_, rfl⟩
  rcases hex with ⟨t, ht⟩
  have hs := (computeTrend_spec costs t ht).2.1
  refine ⟨t, ht, ?_, ?_⟩ <;> intro h0
  · rw [hs, if_pos h0]
  · rw [hs, if_neg h0]

/-- Witness for C1 at the cost list `[1, 3]`. -/
theorem C1_growth_rate_formula_witness :
    2 ≤ ([1, 3] : List ℚ).length ∧
    (∃ t, computeTrend [1, 3] = some t ∧
      (([1, 3] : List ℚ).headD 0 = 0 → t.growth_rate = 0) ∧
      (([1, 3] : List ℚ).headD 0 ≠ 0 →
        t.growth_rate =
          ((([1, 3] : List ℚ).getLastD 0 - ([1, 3] : List ℚ).headD 0) /
            ([1, 3] : List ℚ).headD 0) * 100)) :=
  ⟨by decide, C1_growth_rate_formula [1, 3] (by decide)⟩

/-- C3: for every line-item with at least two monthly cost values, the
derived metrics of `analyze_service_characteristics` (`main.py:140-151` /
`simple_analyzer.py:64-75`) satisfy: `average` is the sum of the monthly
costs divided by their count, `max`/`min` are the maximum/minimum of the
monthly costs, and `volatility = max - min`. -/
theorem C3_derived_metrics (costs : List ℚ) (h : 2 ≤ costs.length) :
    ∃ t, computeTrend costs = some t ∧
      t.average = costs.sum / (costs.length : ℚ) ∧
      (t.max ∈ costs ∧ ∀ x ∈ costs, x ≤ t.max) ∧
      (t.min ∈ costs ∧ ∀ x ∈ costs, t.min ≤ x) ∧
      t.volatility = t.max - t.min := by
  have hex : ∃ t, computeTrend costs = some t := by
    match costs, h with
    | c0 :: c1 :: rest, _ => exact ⟨_, rfl⟩
  rcases hex with ⟨t, ht⟩
  rcases computeTrend_spec costs t ht with ⟨-, -, h3, h4, h5, h6, h7, h8⟩
  exact ⟨t, ht, h3, ⟨h4, h5⟩, ⟨h6, h7⟩, h8⟩

/-- Witness for C3 at the cost list `[1, 3]`. -/
theorem C3_derived_metrics_witness :
    2 ≤ ([1, 3] : List ℚ).length ∧
    (∃ t, computeTrend [1, 3] = some t ∧
      t.average = ([1, 3] : List ℚ).sum / (([1, 3] : List ℚ).length : ℚ) ∧
      (t.max ∈ ([1, 3] : List ℚ) ∧ ∀ x ∈ ([1, 3] : List ℚ), x ≤ t.max) ∧
      (t.min ∈ ([1, 3] : List ℚ) ∧ ∀ x ∈ ([1, 3] : List ℚ), t.min ≤ x) ∧
      t.volatility = t.max - t.min) :=
  ⟨by decide, C3_derived_metrics [1, 3] (by decide)⟩

/-- C7: for every line-item whose monthly amounts are all non-negative,
every computed `cost_trends` entry satisfies `min ≤ average ≤ max`, and
`average`, `max`, `min` and `volatility = max - min` are all non-negative
(in either implementation). -/
theorem C7_trend_invariants (data : List Row) (service : String) (a : Analysis)
    (ha : SimpleAWSCostAnalyzer.analyze_service_characteristics data service = some a ∨
          AWSCostAnalyzer.analyze_service_characteristics data service = some a)
    (hpos : ∀ r ∈ data, ∀ x ∈ SimpleAWSCostAnalyzer.rowCosts r, (0 : ℚ) ≤ x)
    (k : String) (t : Trend) (ht : (k, t) ∈ a.cost_trends) :
    t.min ≤ t.average ∧ t.average ≤ t.max ∧
    0 ≤ t.average ∧ 0 ≤ t.max ∧ 0 ≤ t.min ∧
    t.volatility = t.max - t.min ∧ 0 ≤ t.volatility := by
  rcases analyze_cost_trends_mem data service a ha k t ht with ⟨r, hr, -, -, hct⟩
  rcases computeTrend_spec _ t hct with
    ⟨hlen, -, havg, hmax_mem, hmax, hmin_mem, hmin, hvol⟩
  have hposc := hpos r hr
  have hn : (0 : ℚ) < ((SimpleAWSCostAnalyzer.rowCosts r).length : ℚ) := by
    have : 0 < (SimpleAWSCostAnalyzer.rowCosts r).length := lt_of_lt_of_le (by norm_num) hlen
    exact_mod_cast this
  have hminavg : t.min ≤ t.average := by
    rw [havg, le_div_iff₀ hn, mul_comm]
    exact length_mul_le_sum _ _ hmin
  have havgmax : t.average ≤ t.max := by
    rw [havg, div_le_iff₀ hn, mul_comm]
    exact sum_le_length_mul _ _ hmax
  have hmin0 : (0 : ℚ) ≤ t.min := hposc _ hmin_mem
  refine ⟨hminavg, havgmax, le_trans hmin0 hminavg, hposc _ hmax_mem, hmin0, hvol, ?_⟩
  rw [hvol]
  exact sub_nonneg.mpr (le_trans hminavg havgmax)

/-- Witness for C7 at `sampleData` / service `"S"`: the `"All"` entry of the
analysis satisfies the invariants. -/
theorem C7_trend_invariants_witness :
    SimpleAWSCostAnalyzer.analyze_service_characteristics sampleData "S" = some sampleAnalysis ∧
    (("All", sampleTrend) ∈ sampleAnalysis.cost_trends) ∧
    (sampleTrend.min ≤ sampleTrend.average ∧ sampleTrend.average ≤ sampleTrend.max ∧
     0 ≤ sampleTrend.average ∧ 0 ≤ sampleTrend.max ∧ 0 ≤ sampleTrend.min ∧
     sampleTrend.volatility = sampleTrend.max - sampleTrend.min ∧
     0 ≤ sampleTrend.volatility) :=
  ⟨by decide, by decide,
   C7_trend_invariants sampleData "S" sampleAnalysis (Or.inl (by decide))
     (by decide) "All" sampleTrend (by decide)⟩

/-- C2: for every service whose `'All'` line-item has computed metrics, the
trend classification (`main.py:154-168` / `simple_analyzer.py:78-92`) uses
exactly the fixed thresholds on the `'All'` item's metrics — `> 20` rapid
growth, else `> 5` growth, else `< -10` cost reduction, else stable — and
the high-volatility label is chosen if and only if
`volatility > 0.5 * average`. -/
theorem C2_trend_thresholds (data : List Row) (service : String) (a : Analysis)
    (t : Trend)
    (ha : SimpleAWSCostAnalyzer.analyze_service_characteristics data service = some a ∨
          AWSCostAnalyzer.analyze_service_characteristics data service = some a)
    (ht : dictGet a.cost_trends "All" = some t) :
    a.characteristics =
      [ (if t.growth_rate > 20 then rapidGrowthLabel
         else if t.growth_rate > 5 then growthLabel
         else if t.growth_rate < -10 then costReductionLabel
         else stableLabel),
        (if t.volatility > t.average * 0.5 then highVolatilityLabel
         else lowVolatilityLabel) ] ∧
    (highVolatilityLabel ∈ a.characteristics ↔ t.volatility > t.average * 0.5) := by
  have hc := analyze_characteristics_eq data service a ha
  rw [hc]
  simp only [characteristicsOf, ht]
  refine ⟨trivial, ?_⟩
  by_cases hv : t.volatility > t.average * 0.5
  · rw [if_pos hv]
    simp only [hv, iff_true]
    exact List.mem_cons_of_mem _ (List.mem_cons_self _ _)
  · rw [if_neg hv]
    simp only [hv, iff_false]
    split_ifs <;> decide

/-- Witness for C2 at `sampleData` / service `"S"`. -/
theorem C2_trend_thresholds_witness :
    SimpleAWSCostAnalyzer.analyze_service_characteristics sampleData "S" = some sampleAnalysis ∧
    dictGet sampleAnalysis.cost_trends "All" = some sampleTrend ∧
    (sampleAnalysis.characteristics =
      [ (if sampleTrend.growth_rate > 20 then rapidGrowthLabel
         else if sampleTrend.growth_rate > 5 then growthLabel
         else if sampleTrend.growth_rate < -10 then costReductionLabel
         else stableLabel),
        (if sampleTrend.volatility > sampleTrend.average * 0.5 then highVolatilityLabel
         else lowVolatilityLabel) ] ∧
     (highVolatilityLabel ∈ sampleAnalysis.characteristics ↔
       sampleTrend.volatility > sampleTrend.average * 0.5)) :=
  ⟨by decide, by decide,
   C2_trend_thresholds sampleData "S" sampleAnalysis sampleTrend
     (Or.inl (by decide)) (by decide)⟩

/-- C4: the trend classification depends only on the `'All'` item's metrics:
two analyses whose `'All'` entries agree on `growth_rate`, `average` and
`volatility` have equal `characteristics` lists, whatever the other items. -/
theorem C4_characteristics_noninterference (d1 d2 : List Row) (s1 s2 : String)
    (a1 a2 : Analysis) (t1 t2 : Trend)
    (h1 : SimpleAWSCostAnalyzer.analyze_service_characteristics d1 s1 = some a1 ∨
          AWSCostAnalyzer.analyze_service_characteristics d1 s1 = some a1)
    (h2 : SimpleAWSCostAnalyzer.analyze_service_characteristics d2 s2 = some a2 ∨
          AWSCostAnalyzer.analyze_service_characteristics d2 s2 = some a2)
    (hA1 : dictGet a1.cost_trends "All" = some t1)
    (hA2 : dictGet a2.cost_trends "All" = some t2)
    (hg : t1.growth_rate = t2.growth_rate)
    (hav : t1.average = t2.average)
    (hv : t1.volatility = t2.volatility) :
    a1.characteristics = a2.characteristics := by
  rw [analyze_characteristics_eq d1 s1 a1 h1, analyze_characteristics_eq d2 s2 a2 h2]
  simp only [characteristicsOf, hA1, hA2, hg, hav, hv]

/-- Witness for C4: `sampleData` and the larger `sampleData2` (an extra item
`"B"`) share the `'All'` metrics, hence the characteristics agree. -/
theorem C4_characteristics_noninterference_witness :
    SimpleAWSCostAnalyzer.analyze_service_characteristics sampleData "S" = some sampleAnalysis ∧
    SimpleAWSCostAnalyzer.analyze_service_characteristics sampleData2 "S" = some sampleAnalysis2 ∧
    dictGet sampleAnalysis.cost_trends "All" = some sampleTrend ∧
    dictGet sampleAnalysis2.cost_trends "All" = some sampleTrend ∧
    sampleAnalysis.characteristics = sampleAnalysis2.characteristics :=
  ⟨by decide, by decide, by decide, by decide,
   C4_characteristics_noninterference sampleData sampleData2 "S" "S"
     sampleAnalysis sampleAnalysis2 sampleTrend sampleTrend
     (Or.inl (by decide)) (Or.inl (by decide)) (by decide) (by decide)
     rfl rfl rfl⟩

/-- C6: when the `'All'` item has metrics the characteristics list is
exactly two labels — the first from the growth set and the second from the
volatility set — and it is empty when the `'All'` item has none. -/
theorem C6_label_membership (data : List Row) (service : String) (a : Analysis)
    (ha : SimpleAWSCostAnalyzer.analyze_service_characteristics data service = some a ∨
          AWSCostAnalyzer.analyze_service_characteristics data service = some a) :
    (∀ t, dictGet a.cost_trends "All" = some t →
      ∃ g v, a.characteristics = [g, v] ∧
        g ∈ [rapidGrowthLabel, growthLabel, costReductionLabel, stableLabel] ∧
        v ∈ [highVolatilityLabel, lowVolatilityLabel]) ∧
    (dictGet a.cost_trends "All" = none → a.characteristics = []) := by
  have hc := analyze_characteristics_eq data service a ha
  constructor
  · intro t ht
    rw [hc]
    simp only [characteristicsOf, ht]
    refine ⟨_, _, rfl, ?_, ?_⟩
    · split_ifs <;> decide
    · split_ifs <;> decide
  · intro ht
    rw [hc]
    simp only [characteristicsOf, ht]

/-- Witness for C6 at `sampleData` / service `"S"`. -/
theorem C6_label_membership_witness :
    SimpleAWSCostAnalyzer.analyze_service_characteristics sampleData "S" = some sampleAnalysis ∧
    dictGet sampleAnalysis.cost_trends "All" = some sampleTrend ∧
    (∃ g v, sampleAnalysis.characteristics = [g, v] ∧
      g ∈ [rapidGrowthLabel, growthLabel, costReductionLabel, stableLabel] ∧
      v ∈ [highVolatilityLabel, lowVolatilityLabel]) :=
  ⟨by decide, by decide,
   (C6_label_membership sampleData "S" sampleAnalysis (Or.inl (by decide))).1
     sampleTrend (by decide)⟩

/-- C8: `generate_optimization_suggestions` (`main.py:276-311` /
`simple_analyzer.py:475-522`) returns at most 4 suggestions; the urgent
cost-increase suggestion appears only when the `'All'` growth rate exceeds
20; and a service outside the fixed table with `'All'` growth rate at most
20 gets the empty list. -/
theorem C8_suggestion_bounds (table : List (String × List String))
    (service : String) (a : Analysis)
    (htab : table = AWSCostAnalyzer.service_suggestions ∨
            table = SimpleAWSCostAnalyzer.service_suggestions) :
    (optimizationSuggestionsWith table service a).length ≤ 4 ∧
    (urgentCostIncreaseLabel ∈ optimizationSuggestionsWith table service a →
      allGrowthRate a > 20) ∧
    (dictGet table service = none → allGrowthRate a ≤ 20 →
      optimizationSuggestionsWith table service a = []) := by
  refine ⟨?_, ?_, ?_⟩
  · simp only [optimizationSuggestionsWith]
    rw [List.length_take]
    exact min_le_left _ _
  · intro hmem
    by_contra hgr
    simp only [optimizationSuggestionsWith] at hmem
    rw [if_neg hgr] at hmem
    have hmem2 := List.take_subset _ _ hmem
    cases hd : dictGet table service with
    | none =>
      rw [hd] at hmem2
      cases hmem2
    | some l =>
      rw [hd] at hmem2
      simp only [Option.getD_some] at hmem2
      have hl := dictGet_mem _ _ _ hd
      rcases htab with rfl | rfl
      · simp only [AWSCostAnalyzer.service_suggestions, List.mem_cons,
          List.not_mem_nil, or_false] at hl
        rcases hl with he | he | he <;> (cases he; revert hmem2; decide)
      · simp only [SimpleAWSCostAnalyzer.service_suggestions,
          AWSCostAnalyzer.service_suggestions, List.cons_append,
          List.nil_append, List.mem_cons, List.not_mem_nil, or_false] at hl
        rcases hl with he | he | he | he | he <;> (cases he; revert hmem2; decide)
  · intro hd hle
    simp only [optimizationSuggestionsWith, hd, Option.getD_none,
      if_neg (not_lt.mpr hle)]
    rfl

/-- Witness for C8: an unknown service with no `'All'` trend gets no
suggestions, and the list length is within the bound. -/
theorem C8_suggestion_bounds_witness :
    dictGet AWSCostAnalyzer.service_suggestions "Amazon SNS" = none ∧
    allGrowthRate emptyAnalysis ≤ 20 ∧
    (optimizationSuggestionsWith AWSCostAnalyzer.service_suggestions
      "Amazon SNS" emptyAnalysis).length ≤ 4 ∧
    optimizationSuggestionsWith AWSCostAnalyzer.service_suggestions
      "Amazon SNS" emptyAnalysis = [] :=
  ⟨by decide, by decide,
   (C8_suggestion_bounds AWSCostAnalyzer.service_suggestions "Amazon SNS"
     emptyAnalysis (Or.inl rfl)).1,
   (C8_suggestion_bounds AWSCostAnalyzer.service_suggestions "Amazon SNS"
     emptyAnalysis (Or.inl rfl)).2.2 (by decide) (by decide)⟩

/-- C9: on a dataset in which every monthly cost cell is a non-empty
numeric value, `analyze_service_characteristics` of `main.py` and of
`simple_analyzer.py` return equal analyses for every service. -/
theorem C9_implementations_agree (data : List Row) (service : String)
    (hnum : ∀ r ∈ data, ∀ c ∈ r.cells, c.isSome) :
    AWSCostAnalyzer.analyze_service_characteristics data service =
    SimpleAWSCostAnalyzer.analyze_service_characteristics data service := by
  unfold AWSCostAnalyzer.analyze_service_characteristics
    SimpleAWSCostAnalyzer.analyze_service_characteristics
  by_cases hempty : (data.filter (fun r => r.service == service)).isEmpty
  · simp [hempty]
  · have hps := rowPairs_of_all_some (data.filter (fun r => r.service == service))
      (fun r hr c hc => hnum r (List.mem_of_mem_filter hr) c hc)
    simp [hempty, hps]

/-- Witness for C9 at `sampleData2` / service `"S"`. -/
theorem C9_implementations_agree_witness :
    (∀ r ∈ sampleData2, ∀ c ∈ r.cells, c.isSome) ∧
    AWSCostAnalyzer.analyze_service_characteristics sampleData2 "S" =
      SimpleAWSCostAnalyzer.analyze_service_characteristics sampleData2 "S" :=
  ⟨by decide, C9_implementations_agree sampleData2 "S" (by decide)⟩

/-- C10: a line-item whose parsed monthly cost list has length at most 1
gets no `cost_trends` entry, and its detail row in
`generate_service_markdown` is rendered with the defaults
`average = 0`, `growth_rate = 0`, `volatility = 0`
(formatted as `$0.00`, `+0.0%`, `$0.00`). -/
theorem C10_short_item_defaults (data : List Row) (service : String)
    (a : Analysis)
    (ha : SimpleAWSCostAnalyzer.analyze_service_characteristics data service = some a ∨
          AWSCostAnalyzer.analyze_service_characteristics data service = some a)
    (k desc : String)
    (hshort : ∀ r ∈ data, r.service = service → r.item = k →
      (SimpleAWSCostAnalyzer.rowCosts r).length ≤ 1) :
    dictGet a.cost_trends k = none ∧
    detailRow a.cost_trends k desc =
      "| " ++ k ++ " | " ++ desc ++ " | $" ++ fmt2 0 ++ " | " ++
        fmtSigned1 0 ++ "% | $" ++ fmt2 0 ++ " |\n" ∧
    fmt2 0 = "0.00" ∧ fmtSigned1 0 = "+0.0" := by
  have hnone := analyze_dictGet_none data service a ha k hshort
  refine ⟨hnone, ?_, by decide, by decide⟩
  simp only [detailRow, hnone, Option.map_none', Option.getD_none]

/-- Witness for C10 at `sampleData10`, item `"A"` (single monthly cost). -/
theorem C10_short_item_defaults_witness :
    SimpleAWSCostAnalyzer.analyze_service_characteristics sampleData10 "S" =
      some sampleAnalysis10 ∧
    (∀ r ∈ sampleData10, r.service = "S" → r.item = "A" →
      (SimpleAWSCostAnalyzer.rowCosts r).length ≤ 1) ∧
    (dictGet sampleAnalysis10.cost_trends "A" = none ∧
     detailRow sampleAnalysis10.cost_trends "A" "d" =
       "| " ++ "A" ++ " | " ++ "d" ++ " | $" ++ fmt2 0 ++ " | " ++
         fmtSigned1 0 ++ "% | $" ++ fmt2 0 ++ " |\n" ∧
     fmt2 0 = "0.00" ∧ fmtSigned1 0 = "+0.0") :=
  ⟨by decide, by decide,
   C10_short_item_defaults sampleData10 "S" sampleAnalysis10
     (Or.inl (by decide)) "A" "d" (by decide)⟩

/-- C5 counterexample: report content is not a function of the dataset
alone — both `generate_service_markdown` implementations embed the
analysis date (`datetime.now()` at `main.py:180`, rendered at
`main.py:189`; `simple_analyzer.py:104`, rendered at line 116), so two
runs of the report generation on the same dataset on different dates
produce different Markdown contents in each implementation. -/
theorem C5_date_counterexample :
    (AWSCostAnalyzer.generate_service_markdown sampleData sampleMonths "S"
       "chart.html" "2025/10/11" sampleAnalysis ≠
     AWSCostAnalyzer.generate_service_markdown sampleData sampleMonths "S"
       "chart.html" "2025/10/12" sampleAnalysis) ∧
    (SimpleAWSCostAnalyzer.generate_service_markdown sampleData sampleMonths "S"
       "2025/10/11" sampleAnalysis ≠
     SimpleAWSCostAnalyzer.generate_service_markdown sampleData sampleMonths "S"
       "2025/10/12" sampleAnalysis) :=
  ⟨by decide, by decide⟩

/-- C5 amended: report generation is idempotent per analysis date in both
implementations — two runs of `generate_service_markdown` (`main.py` or
`simple_analyzer.py`) on the same dataset, service, analysis and current
date produce identical Markdown content; the date line is the only
run-dependent input. -/
theorem C5_same_date_idempotent (data : List Row) (months : List String)
    (service chartFile d1 d2 : String) (a : Analysis) (hd : d1 = d2) :
    (AWSCostAnalyzer.generate_service_markdown data months service chartFile d1 a =
     AWSCostAnalyzer.generate_service_markdown data months service chartFile d2 a) ∧
    (SimpleAWSCostAnalyzer.generate_service_markdown data months service d1 a =
     SimpleAWSCostAnalyzer.generate_service_markdown data months service d2 a) := by
  rw [hd]
  exact ⟨rfl, rfl⟩

/-- Witness for the amended C5 at a concrete dataset and date. -/
theorem C5_same_date_idempotent_witness :
    ("2025/10/11" : String) = "2025/10/11" ∧
    ((AWSCostAnalyzer.generate_service_markdown sampleData sampleMonths "S"
        "chart.html" "2025/10/11" sampleAnalysis =
      AWSCostAnalyzer.generate_service_markdown sampleData sampleMonths "S"
        "chart.html" "2025/10/11" sampleAnalysis) ∧
     (SimpleAWSCostAnalyzer.generate_service_markdown sampleData sampleMonths "S"
        "2025/10/11" sampleAnalysis =
      SimpleAWSCostAnalyzer.generate_service_markdown sampleData sampleMonths "S"
        "2025/10/11" sampleAnalysis)) :=
  ⟨rfl, C5_same_date_idempotent sampleData sampleMonths "S" "chart.html"
    "2025/10/11" "2025/10/11" sampleAnalysis rfl⟩

end
